import Mathlib

/-!
Verification development for the channel-post distribution bot
(`bot.py`, `database.py`): the post collector (`receive_posts`), the
dispatcher (`send_posts_now`, `send_post_to_channel`), the cancellation
handlers, and the authorization check (`Database.is_sudo_user`).

Python strings are modelled as `List Char` (Python slicing `s[:n]` is
`List.take n` on code points).  Python `None`-able values are `Option`,
Python truthiness of strings is explicit (`none` and the empty string are
falsy).  The Telegram client calls are opaque, possibly-failing I/O: each
delivery attempt is driven by an oracle `Nat → CallOutcome` giving the
platform's reaction (success, raised `TelegramError`, or another raised
exception) for the pairing at that index.
-/

namespace PaidBot

/-- Textual content of a message, caption or payload: a Python string as a
list of code points. -/
abbrev Text := List Char

/-- The `media_type` tags assigned by `receive_posts` (bot.py:417-432). -/
inductive MediaType
  | photo
  | video
  | document
  | text
deriving DecidableEq, Repr

/-- A registered channel record as used by the dispatch path: the fields
`channel_id` and `channel_title` read by `send_posts_now` (bot.py:520-534). -/
structure Channel where
  channel_id : String
  channel_title : String
deriving DecidableEq, Repr

/-- The `post_data` dict built by `receive_posts` (bot.py:408-415). -/
structure PostData where
  message_id : Nat
  chat_id : Int
  text : Text
  media_type : Option MediaType
  file_id : Option String
  has_media : Bool
deriving DecidableEq, Repr

/-- The fields of an incoming Telegram message inspected by
`receive_posts`: `photo` is the list of photo-size file ids (truthy iff
nonempty, `photo[-1]` is its last element); `video`/`document` carry a file
id when present. -/
structure IncomingMessage where
  message_id : Nat
  chat_id : Int
  text : Option Text
  caption : Option Text
  photo : List String
  video : Option String
  document : Option String
deriving DecidableEq, Repr

/-- Python truthiness of an optional string: `None` and `""` are falsy. -/
def pyTruthyStr : Option String → Bool
  | none => false
  | some s => !s.isEmpty

/-- Python truthiness of optional text: `None` and `""` are falsy. -/
def pyTruthyTxt : Option Text → Bool
  | none => false
  | some t => !t.isEmpty

/-- Python `a or d` for optional text `a` (used for
`update.message.text or update.message.caption or ''`, bot.py:411). -/
def pyTextOr (a : Option Text) (d : Text) : Text :=
  match a with
  | none => d
  | some t => if t.isEmpty then d else t

/-- The `post_data` record built from an incoming message, mirroring
bot.py:407-432: text is `message.text or message.caption or ''`; then the
`if photo / elif video / elif document / elif text` chain sets
`media_type`, `file_id` and `has_media`. -/
def mkPostData (msg : IncomingMessage) : PostData :=
  let base : PostData :=
    { message_id := msg.message_id
      chat_id := msg.chat_id
      text := pyTextOr msg.text (pyTextOr msg.caption [])
      media_type := none
      file_id := none
      has_media := false }
  if msg.photo.isEmpty then
    if msg.video.isSome then
      { base with media_type := some MediaType.video, file_id := msg.video, has_media := true }
    else if msg.document.isSome then
      { base with media_type := some MediaType.document, file_id := msg.document, has_media := true }
    else if pyTruthyTxt msg.text then
      { base with media_type := some MediaType.text, has_media := false }
    else base
  else
    { base with media_type := some MediaType.photo, file_id := msg.photo.getLast?, has_media := true }

/-- Outcome of one `receive_posts` call, as signalled to the user and the
conversation framework (bot.py:399-491). -/
inductive ReceiveOutcome
  | sessionExpired
  | needMore (remaining : Nat)
  | ready
  | overflow
deriving DecidableEq, Repr

/-- The conversation states relevant to the distribution flow:
`WAITING_FOR_POSTS`, `WAITING_FOR_SCHEDULE`, and `ConversationHandler.END`. -/
inductive ConvState
  | waiting_for_posts
  | waiting_for_schedule
  | ended
deriving DecidableEq, Repr

/-- The per-user session data stored in `context.user_data` by
`post_command` (bot.py:374-377). -/
structure UserData where
  channels : List Channel
  posts_received : List PostData
  channel_count : Nat
deriving DecidableEq, Repr

/-- `receive_posts` (bot.py:396-491).  `none` user data models
`'channels' not in context.user_data` (session expired).  Otherwise the
post is appended to `posts_received` unconditionally (bot.py:434), and the
new length is compared with `channel_count`: strictly below gives
NEED_MORE and stays in `WAITING_FOR_POSTS`; equal gives READY and moves to
`WAITING_FOR_SCHEDULE`; above replies "more posts than required"
(OVERFLOW) and stays in `WAITING_FOR_POSTS`. -/
def receive_posts (ud : Option UserData) (msg : IncomingMessage) :
    Option UserData × ReceiveOutcome × ConvState :=
  match ud with
  | none => (none, ReceiveOutcome.sessionExpired, ConvState.ended)
  | some d =>
    let d' : UserData := { d with posts_received := d.posts_received ++ [mkPostData msg] }
    let received := d'.posts_received.length
    let required := d.channel_count
    if received < required then
      (some d', ReceiveOutcome.needMore (required - received), ConvState.waiting_for_posts)
    else if received = required then
      (some d', ReceiveOutcome.ready, ConvState.waiting_for_schedule)
    else
      (some d', ReceiveOutcome.overflow, ConvState.waiting_for_posts)

/-- `post_command` (bot.py:360-394): with no channels the conversation
ends (`NO_CHANNELS`); otherwise `user_data` gets the channel snapshot, an
empty `posts_received` and `channel_count = len(channels)`, and the
conversation enters `WAITING_FOR_POSTS`. -/
def post_command (channels : List Channel) : Option UserData × ConvState :=
  if channels.isEmpty then (none, ConvState.ended)
  else
    (some { channels := channels, posts_received := [], channel_count := channels.length },
     ConvState.waiting_for_posts)

/-- A conversation-level session: the stored user data plus the current
conversation state. -/
structure BotSession where
  userData : Option UserData
  conv : ConvState
deriving DecidableEq, Repr

/-- The session right after `/post` (bot.py:360-394). -/
def startSession (channels : List Channel) : BotSession :=
  { userData := (post_command channels).1, conv := (post_command channels).2 }

/-- One incoming (non-command) message against the conversation handler:
in `WAITING_FOR_POSTS` it is routed to `receive_posts`; in any other state
the message handler of the conversation does not fire and the session is
unchanged (bot.py:67-79). -/
def stepMessage (s : BotSession) (msg : IncomingMessage) : BotSession :=
  match s.conv with
  | ConvState.waiting_for_posts =>
    { userData := (receive_posts s.userData msg).1
      conv := (receive_posts s.userData msg).2.2 }
  | _ => s

/-- A call made to the Telegram client during dispatch
(bot.py:554-580). -/
inductive PlatformCall
  | sendPhoto (chat_id : String) (file_id : String) (caption : Option Text)
  | sendVideo (chat_id : String) (file_id : String) (caption : Option Text)
  | sendDocument (chat_id : String) (file_id : String) (caption : Option Text)
  | sendMessage (chat_id : String) (text : Text)
deriving DecidableEq, Repr

/-- The platform's reaction to one delivery call: success, a raised
`TelegramError`, or another raised exception (bot.py:585-590). -/
inductive CallOutcome
  | ok
  | telegramError (reason : String)
  | otherError (reason : String)
deriving DecidableEq, Repr

/-- An exception escaping a delivery call. -/
inductive TgError
  | telegram (reason : String)
  | other (reason : String)
deriving DecidableEq, Repr

/-- `post['text'][:1024] if post['text'] else None` (bot.py:558,565,572). -/
def pyCaption (t : Text) : Option Text :=
  if t.isEmpty then none else some (t.take 1024)

/-- The Telegram call `send_post_to_channel` makes for a post, if any,
mirroring the branch chain of bot.py:554-583: photo/video/document with a
truthy `file_id` get the corresponding send with caption truncated to
1024; otherwise a truthy `text` is sent as a message truncated to 4096;
otherwise no call is made ("No content to send"). -/
def attemptedCall (channel_id : String) (post : PostData) : Option PlatformCall :=
  if post.media_type = some MediaType.photo ∧ pyTruthyStr post.file_id then
    some (PlatformCall.sendPhoto channel_id (post.file_id.getD "") (pyCaption post.text))
  else if post.media_type = some MediaType.video ∧ pyTruthyStr post.file_id then
    some (PlatformCall.sendVideo channel_id (post.file_id.getD "") (pyCaption post.text))
  else if post.media_type = some MediaType.document ∧ pyTruthyStr post.file_id then
    some (PlatformCall.sendDocument channel_id (post.file_id.getD "") (pyCaption post.text))
  else if !post.text.isEmpty then
    some (PlatformCall.sendMessage channel_id (post.text.take 4096))
  else none

/-- The body of `send_post_to_channel` before its `except` clauses
(bot.py:553-584): the chosen client call is awaited and may raise; with no
content it returns `False` without any call. -/
def send_post_to_channel_raw (channel_id : String) (post : PostData) (outcome : CallOutcome) :
    Except TgError (Option PlatformCall × Bool) :=
  match attemptedCall channel_id post with
  | none => Except.ok (none, false)
  | some c =>
    match outcome with
    | CallOutcome.ok => Except.ok (some c, true)
    | CallOutcome.telegramError r => Except.error (TgError.telegram r)
    | CallOutcome.otherError r => Except.error (TgError.other r)

/-- `send_post_to_channel` (bot.py:551-590): the raw body with
`except TelegramError` / `except Exception` both returning `False`.  The
first component records the client call that was attempted (present even
when the platform raised), the second is the returned success flag. -/
def send_post_to_channel (channel_id : String) (post : PostData) (outcome : CallOutcome) :
    Option PlatformCall × Bool :=
  match send_post_to_channel_raw channel_id post outcome with
  | Except.ok r => r
  | Except.error _ => (attemptedCall channel_id post, false)

/-- The dispatcher's running state: the pairings attempted (in order), the
client calls made (in order), `success_count` and `failed_channels`
(bot.py:516-534). -/
structure DispatchLog where
  attempts : List (String × PostData)
  calls : List PlatformCall
  success_count : Nat
  failed_channels : List String
deriving DecidableEq, Repr

/-- Dispatch state before the loop (bot.py:516-517). -/
def emptyLog : DispatchLog := ⟨[], [], 0, []⟩

/-- One iteration of the dispatch loop (bot.py:520-534): attempt the
pairing via `send_post_to_channel`; on success increment `success_count`,
otherwise append the channel's title to `failed_channels`. -/
def sendStep (oracle : Nat → CallOutcome) (log : DispatchLog)
    (item : Nat × Channel × PostData) : DispatchLog :=
  let r := send_post_to_channel item.2.1.channel_id item.2.2 (oracle item.1)
  let log1 : DispatchLog :=
    { log with
        attempts := log.attempts ++ [(item.2.1.channel_id, item.2.2)]
        calls := log.calls ++ r.1.toList }
  if r.2 then { log1 with success_count := log1.success_count + 1 }
  else { log1 with failed_channels := log1.failed_channels ++ [item.2.1.channel_title] }

/-- `send_posts_now`'s dispatch pass (bot.py:508-549): iterate
`zip(channels, posts)` in order, one `send_post_to_channel` per pairing. -/
def send_posts_now (channels : List Channel) (posts : List PostData)
    (oracle : Nat → CallOutcome) : DispatchLog :=
  ((channels.zip posts).enum).foldl (sendStep oracle) emptyLog

/-- The body of one loop iteration as seen by the per-iteration
`try` (bot.py:521-530); every operation in it is modelled as pure, so it
never raises. -/
def trySendBody (oracle : Nat → CallOutcome) (log : DispatchLog)
    (item : Nat × Channel × PostData) : Except String DispatchLog :=
  Except.ok (sendStep oracle log item)

/-- One loop iteration with its `except Exception` clause
(bot.py:532-534): an exception escaping the body is caught and recorded as
a failure for this channel; it is never re-raised. -/
def sendStepExc (oracle : Nat → CallOutcome) (log : DispatchLog)
    (item : Nat × Channel × PostData) : Except String DispatchLog :=
  match trySendBody oracle log item with
  | Except.ok l => Except.ok l
  | Except.error _ =>
    Except.ok { log with failed_channels := log.failed_channels ++ [item.2.1.channel_title] }

/-- The dispatch loop with exception propagation made explicit: an error
escaping an iteration would abort the loop and propagate to the caller of
`send_posts_now`. -/
def sendLoopExc (oracle : Nat → CallOutcome) :
    List (Nat × Channel × PostData) → DispatchLog → Except String DispatchLog
  | [], log => Except.ok log
  | item :: rest, log =>
    match sendStepExc oracle log item with
    | Except.ok l => sendLoopExc oracle rest l
    | Except.error e => Except.error e

/-- `send_posts_now` under explicit exception semantics. -/
def send_posts_now_exc (channels : List Channel) (posts : List PostData)
    (oracle : Nat → CallOutcome) : Except String DispatchLog :=
  sendLoopExc oracle ((channels.zip posts).enum) emptyLog

/-- The report assembled after the loop (bot.py:537-543): total targets
(`len(channels)`), `success_count`, and the failed channels' titles. -/
structure PostingReport where
  total : Nat
  success : Nat
  failed : List String
deriving DecidableEq, Repr

/-- Build the report from the dispatch state (bot.py:537-543). -/
def postingReport (channels : List Channel) (log : DispatchLog) : PostingReport :=
  ⟨channels.length, log.success_count, log.failed_channels⟩

/-- The pairing list the spec demands: the i-th collected post with the
i-th channel of the snapshot, in order. -/
def dispatchPairings (channels : List Channel) (posts : List PostData) :
    List (String × PostData) :=
  (channels.zip posts).map (fun cp => (cp.1.channel_id, cp.2))

/-- Whether the delivery for an indexed pairing succeeds under the
oracle. -/
def pairingSucceeds (oracle : Nat → CallOutcome) (x : Nat × Channel × PostData) : Bool :=
  (send_post_to_channel x.2.1.channel_id x.2.2 (oracle x.1)).2

/-- Number of successful pairings of a pass. -/
def successTotal (channels : List Channel) (posts : List PostData)
    (oracle : Nat → CallOutcome) : Nat :=
  (((channels.zip posts).enum).filter (pairingSucceeds oracle)).length

/-- Titles of the failed pairings of a pass, in pairing order. -/
def failedTitles (channels : List Channel) (posts : List PostData)
    (oracle : Nat → CallOutcome) : List String :=
  ((((channels.zip posts).enum).filter (fun x => !pairingSucceeds oracle x)).map
    (fun x => x.2.1.channel_title))

/-- The cancel-post button branch of `handle_schedule_choice`
(bot.py:502-504): the message is edited and the conversation ends;
`context.user_data` is not touched and no delivery call is made.  The
third component lists the delivery calls the handler makes. -/
def handle_cancel_post (ud : Option UserData) :
    Option UserData × ConvState × List PlatformCall :=
  (ud, ConvState.ended, [])

/-- `cancel_conversation` (bot.py:622-628): `context.user_data` is
cleared and the conversation ends; no delivery call is made. -/
def cancel_conversation (_ud : Option UserData) :
    Option UserData × ConvState × List PlatformCall :=
  (none, ConvState.ended, [])

/-- A stored sudo-user document (database.py:83-96). -/
structure SudoUserDoc where
  user_id : Int
  username : String
deriving DecidableEq, Repr

/-- `Database.is_sudo_user` (database.py:114-119): the result of the
`find_one` storage query is either a document (or nothing), or a raised
exception; the function answers `find_one(...) is not None` and maps any
exception to `False`. -/
def is_sudo_user (find_one : Except String (Option SudoUserDoc)) : Bool :=
  match find_one with
  | Except.ok r => r.isSome
  | Except.error _ => false

/-! Concrete values used by counterexamples and witnesses. -/

/-- Sample registered channel "A". -/
def exChannelA : Channel := ⟨"-1001", "A"⟩

/-- Sample registered channel "B". -/
def exChannelB : Channel := ⟨"-1002", "B"⟩

/-- Sample registered channel "C". -/
def exChannelC : Channel := ⟨"-1003", "C"⟩

/-- A collected text post. -/
def exPostHi : PostData := ⟨1, 5, ['h', 'i'], some MediaType.text, none, false⟩

/-- A collected photo post with caption. -/
def exPostPhoto : PostData := ⟨2, 5, ['c'], some MediaType.photo, some "f1", true⟩

/-- A session that already holds as many posts as it has target channels. -/
def exFullUD : UserData := ⟨[exChannelA], [exPostHi], 1⟩

/-- A further incoming text message. -/
def exMsgYo : IncomingMessage := ⟨2, 5, some ['y', 'o'], none, [], none, none⟩

/-- A collected plain-text post "bye". -/
def exPostBye : PostData := ⟨3, 5, ['b', 'y', 'e'], some MediaType.text, none, false⟩

/-- Three registered channels, snapshot order A, B, C. -/
def exChannels3 : List Channel := [exChannelA, exChannelB, exChannelC]

/-- Three collected posts ("hi", photo, "bye"). -/
def exPosts3 : List PostData := [exPostHi, exPostPhoto, exPostBye]

/-- Oracle under which the second pairing's send raises a
`TelegramError("timeout")` and every other send succeeds. -/
def exOracleTimeout : Nat → CallOutcome :=
  fun i => if i = 1 then CallOutcome.telegramError "timeout" else CallOutcome.ok

/-- Oracle under which the second pairing's send raises a
`TelegramError("forbidden")` and every other send succeeds. -/
def exOracleForbidden : Nat → CallOutcome :=
  fun i => if i = 1 then CallOutcome.telegramError "forbidden" else CallOutcome.ok

/-! Dispatch-loop accumulator lemmas. -/

/-- One dispatch step always records exactly its pairing as attempted. -/
theorem sendStep_attempts (o : Nat → CallOutcome) (log : DispatchLog)
    (x : Nat × Channel × PostData) :
    (sendStep o log x).attempts = log.attempts ++ [(x.2.1.channel_id, x.2.2)] := by
  simp only [sendStep]
  split <;> rfl

/-- One dispatch step adds one to `success_count` exactly when the
pairing's delivery succeeds. -/
theorem sendStep_success (o : Nat → CallOutcome) (log : DispatchLog)
    (x : Nat × Channel × PostData) :
    (sendStep o log x).success_count =
      log.success_count + (if pairingSucceeds o x then 1 else 0) := by
  unfold sendStep pairingSucceeds
  split <;> simp_all

/-- One dispatch step appends the channel's title to `failed_channels`
exactly when the pairing's delivery fails. -/
theorem sendStep_failed (o : Nat → CallOutcome) (log : DispatchLog)
    (x : Nat × Channel × PostData) :
    (sendStep o log x).failed_channels =
      log.failed_channels ++ (if pairingSucceeds o x then [] else [x.2.1.channel_title]) := by
  unfold sendStep pairingSucceeds
  split <;> simp_all

/-- Over the whole loop, the attempted pairings are the input pairings in
order, appended after whatever the accumulator already held. -/
theorem sendLoop_attempts (o : Nat → CallOutcome) :
    ∀ (l : List (Nat × Channel × PostData)) (log : DispatchLog),
      (l.foldl (sendStep o) log).attempts =
        log.attempts ++ l.map (fun x => (x.2.1.channel_id, x.2.2))
  | [], log => by simp
  | x :: xs, log => by
    rw [List.foldl_cons, sendLoop_attempts o xs]
    simp [sendStep_attempts]

/-- Over the whole loop, `success_count` grows by the number of
successful pairings. -/
theorem sendLoop_success (o : Nat → CallOutcome) :
    ∀ (l : List (Nat × Channel × PostData)) (log : DispatchLog),
      (l.foldl (sendStep o) log).success_count =
        log.success_count + (l.filter (pairingSucceeds o)).length
  | [], log => by simp
  | x :: xs, log => by
    rw [List.foldl_cons, sendLoop_success o xs]
    by_cases h : pairingSucceeds o x
    · simp [sendStep_success, h, List.filter_cons]
      omega
    · simp [sendStep_success, h, List.filter_cons]

/-- Over the whole loop, `failed_channels` grows by the titles of the
failed pairings, in pairing order. -/
theorem sendLoop_failed (o : Nat → CallOutcome) :
    ∀ (l : List (Nat × Channel × PostData)) (log : DispatchLog),
      (l.foldl (sendStep o) log).failed_channels =
        log.failed_channels ++
          (l.filter (fun x => !pairingSucceeds o x)).map (fun x => x.2.1.channel_title)
  | [], log => by simp
  | x :: xs, log => by
    rw [List.foldl_cons, sendLoop_failed o xs]
    by_cases h : pairingSucceeds o x
    · simp [sendStep_failed, h, List.filter_cons]
    · simp [sendStep_failed, h, List.filter_cons]

/-- The dispatch loop under explicit exception semantics never escapes
with an error: it always completes and computes the plain fold. -/
theorem sendLoopExc_ok (o : Nat → CallOutcome) :
    ∀ (l : List (Nat × Channel × PostData)) (log : DispatchLog),
      sendLoopExc o l log = Except.ok (l.foldl (sendStep o) log)
  | [], _ => rfl
  | x :: xs, log => by
    rw [List.foldl_cons]
    exact sendLoopExc_ok o xs (sendStep o log x)

/-- Mapping the pairing projection over the enumerated pairings drops the
indices. -/
theorem enum_map_pair (l : List (Channel × PostData)) :
    l.enum.map (fun x => (x.2.1.channel_id, x.2.2)) =
      l.map (fun p => (p.1.channel_id, p.2)) := by
  rw [show (fun (x : Nat × Channel × PostData) => (x.2.1.channel_id, x.2.2)) =
        (fun p : Channel × PostData => (p.1.channel_id, p.2)) ∘ Prod.snd from rfl,
      ← List.map_map, List.enum_map_snd]

/-- The attempted pairings of a full pass are exactly the zip of channels
and posts, in order. -/
theorem send_posts_now_attempts (channels : List Channel) (posts : List PostData)
    (oracle : Nat → CallOutcome) :
    (send_posts_now channels posts oracle).attempts = dispatchPairings channels posts := by
  rw [send_posts_now, sendLoop_attempts, enum_map_pair]
  rfl

/-- The first component of `send_post_to_channel` is always the call the
branch chain selects, whatever the platform does. -/
theorem send_post_to_channel_fst (cid : String) (post : PostData) (outcome : CallOutcome) :
    (send_post_to_channel cid post outcome).1 = attemptedCall cid post := by
  unfold send_post_to_channel send_post_to_channel_raw
  cases h : attemptedCall cid post <;> cases outcome <;> simp

/-! C2 -/

/-- C2: for a completed session with as many posts as channels, the
dispatch pass attempts deliveries in exactly the snapshot pairing and
order: the attempted-pairing list is the ordered zip of channels and
posts, its length is the channel count, and its i-th entry pairs the i-th
channel with the i-th post (pairing i is attempted before pairing i+1
because the attempts list is built left to right). -/
theorem dispatch_pairs_in_order (channels : List Channel) (posts : List PostData)
    (oracle : Nat → CallOutcome) (h : channels.length = posts.length) :
    (send_posts_now channels posts oracle).attempts = dispatchPairings channels posts ∧
    (send_posts_now channels posts oracle).attempts.length = channels.length ∧
    ∀ i (h1 : i < channels.length) (h2 : i < posts.length)
        (h3 : i < (send_posts_now channels posts oracle).attempts.length),
      (send_posts_now channels posts oracle).attempts.get ⟨i, h3⟩ =
        ((channels.get ⟨i, h1⟩).channel_id, posts.get ⟨i, h2⟩) := by
  have ha := send_posts_now_attempts channels posts oracle
  refine ⟨ha, ?_, ?_⟩
  · rw [ha]
    simp [dispatchPairings, List.length_zip, h]
  · intro i h1 h2 h3
    simp only [List.get_eq_getElem, ha, dispatchPairings, List.getElem_map, List.getElem_zip]

/-- C2, witness: three channels and three posts dispatched with the
middle send failing still pair post i with channel i, in order. -/
theorem dispatch_pairs_in_order_witness :
    exChannels3.length = exPosts3.length ∧
    (send_posts_now exChannels3 exPosts3 exOracleTimeout).attempts =
      dispatchPairings exChannels3 exPosts3 :=
  ⟨by decide, (dispatch_pairs_in_order exChannels3 exPosts3 exOracleTimeout (by decide)).1⟩

/-! C3 -/

/-- C3: partial-failure isolation of the dispatch pass.  A raised
`TelegramError` or any other exception from a delivery call is absorbed
by `send_post_to_channel`, which returns the failure flag instead of
propagating; the attempted pairings of a pass are the full ordered zip,
independent of the oracle (so a failure at pairing i never prevents the
attempt at pairing i+1); and under explicit exception semantics the loop
always runs to completion, returning the report-bearing log to its caller
instead of an error. -/
theorem dispatch_partial_failure_isolation (channels : List Channel)
    (posts : List PostData) (oracle : Nat → CallOutcome) :
    (send_posts_now channels posts oracle).attempts = dispatchPairings channels posts ∧
    send_posts_now_exc channels posts oracle =
      Except.ok (send_posts_now channels posts oracle) ∧
    ∀ (cid : String) (p : PostData) (r : String),
      send_post_to_channel cid p (CallOutcome.telegramError r) = (attemptedCall cid p, false) ∧
      send_post_to_channel cid p (CallOutcome.otherError r) = (attemptedCall cid p, false) := by
  refine ⟨send_posts_now_attempts channels posts oracle, sendLoopExc_ok oracle _ _, ?_⟩
  intro cid p r
  constructor <;>
    · unfold send_post_to_channel send_post_to_channel_raw
      cases h : attemptedCall cid p <;> simp

/-! C5 -/

/-- C5, counterexample: the same three-channel pass failing at channel B
for two different reasons ("timeout" vs "forbidden") produces identical
reports, and the failed-sends entry is the bare title "B" — so a report
entry carries only the failed channel's title, not the failure reason,
refuting the claim as stated. -/
theorem report_drops_failure_reason :
    exOracleTimeout 1 ≠ exOracleForbidden 1 ∧
    (send_posts_now exChannels3 exPosts3 exOracleTimeout).failed_channels = ["B"] ∧
    postingReport exChannels3 (send_posts_now exChannels3 exPosts3 exOracleTimeout) =
      postingReport exChannels3 (send_posts_now exChannels3 exPosts3 exOracleForbidden) := by
  decide

/-- C5, amended: the distribution report contains the total number of
targets, the success count, and the ordered list of the failed channels'
titles (in pairing order); failure reasons are only logged and are not
part of the report (and the user-facing message prints at most the first
five failed titles plus a count of the rest). -/
theorem dispatch_report_contents (channels : List Channel) (posts : List PostData)
    (oracle : Nat → CallOutcome) :
    postingReport channels (send_posts_now channels posts oracle) =
      ⟨channels.length, successTotal channels posts oracle,
       failedTitles channels posts oracle⟩ := by
  unfold postingReport send_posts_now successTotal failedTitles
  rw [sendLoop_success, sendLoop_failed]
  simp [emptyLog]

/-! C7 -/

/-- Each loop iteration adds exactly one to either `success_count` or the
length of `failed_channels`. -/
theorem sendLoop_count (o : Nat → CallOutcome) :
    ∀ (l : List (Nat × Channel × PostData)) (log : DispatchLog),
      (l.foldl (sendStep o) log).success_count +
          (l.foldl (sendStep o) log).failed_channels.length =
        log.success_count + log.failed_channels.length + l.length
  | [], log => by simp
  | x :: xs, log => by
    rw [List.foldl_cons, sendLoop_count o xs]
    by_cases h : pairingSucceeds o x <;>
      simp [sendStep_success, sendStep_failed, h, List.length_append] <;> omega

/-- C7: every pairing of a pass is counted exactly once — the success
count plus the number of failed-send entries equals the total number of
targets of the pass. -/
theorem dispatch_accounting (channels : List Channel) (posts : List PostData)
    (oracle : Nat → CallOutcome) (h : channels.length = posts.length) :
    (send_posts_now channels posts oracle).success_count +
        (send_posts_now channels posts oracle).failed_channels.length =
      channels.length := by
  unfold send_posts_now
  rw [sendLoop_count]
  simp [emptyLog, List.enum_length, List.length_zip, h]

/-- C7, witness: the three-channel pass with one failure counts 2
successes and 1 failure, totalling 3. -/
theorem dispatch_accounting_witness :
    exChannels3.length = exPosts3.length ∧
    (send_posts_now exChannels3 exPosts3 exOracleTimeout).success_count +
        (send_posts_now exChannels3 exPosts3 exOracleTimeout).failed_channels.length =
      exChannels3.length :=
  ⟨by decide, dispatch_accounting exChannels3 exPosts3 exOracleTimeout (by decide)⟩

/-! C4 -/

/-- The textual payload a client call transmits: the caption for media
sends (`None` meaning no caption text), the text for a plain message. -/
def payloadText : PlatformCall → Text
  | PlatformCall.sendPhoto _ _ c => c.getD []
  | PlatformCall.sendVideo _ _ c => c.getD []
  | PlatformCall.sendDocument _ _ c => c.getD []
  | PlatformCall.sendMessage _ t => t

/-- The platform length limit applied to a call's textual payload:
1024 for captions, 4096 for a plain message. -/
def payloadLimit : PlatformCall → Nat
  | PlatformCall.sendMessage _ _ => 4096
  | _ => 1024

/-- C4: every client call made during dispatch carries a payload
truncated to the platform limit before sending — the payload text equals
the first 1024 units of the post's text for photo/video/document captions
and the first 4096 units for a plain text message, so its length never
exceeds the limit. -/
theorem send_truncates_payload (cid : String) (post : PostData) (outcome : CallOutcome)
    (call : PlatformCall) (h : (send_post_to_channel cid post outcome).1 = some call) :
    payloadText call = post.text.take (payloadLimit call) ∧
    (payloadText call).length ≤ payloadLimit call := by
  rw [send_post_to_channel_fst] at h
  unfold attemptedCall at h
  have hcap : ∀ t : Text, (pyCaption t).getD [] = t.take 1024 := by
    intro t
    unfold pyCaption
    by_cases ht : t.isEmpty <;> simp_all [List.isEmpty_iff]
  split_ifs at h <;> injection h with h <;> subst h <;>
    simp [payloadText, payloadLimit, hcap, List.length_take_le]

/-- C4, witness: a photo post with a 2000-unit caption is transmitted
with exactly its first 1024 units as caption. -/
theorem send_truncates_payload_witness :
    (send_post_to_channel "-1001"
        ⟨4, 5, List.replicate 2000 'a', some MediaType.photo, some "f1", true⟩
        CallOutcome.ok).1 =
      some (PlatformCall.sendPhoto "-1001" "f1" (some (List.replicate 1024 'a'))) ∧
    payloadText (PlatformCall.sendPhoto "-1001" "f1" (some (List.replicate 1024 'a'))) =
      (⟨4, 5, List.replicate 2000 'a', some MediaType.photo, some "f1", true⟩ :
          PostData).text.take
        (payloadLimit (PlatformCall.sendPhoto "-1001" "f1" (some (List.replicate 1024 'a')))) := by
  have hcall : (send_post_to_channel "-1001"
      ⟨4, 5, List.replicate 2000 'a', some MediaType.photo, some "f1", true⟩
      CallOutcome.ok).1 =
      some (PlatformCall.sendPhoto "-1001" "f1" (some (List.replicate 1024 'a'))) := by
    have hf : pyTruthyStr (some "f1") = true := by decide
    rw [send_post_to_channel_fst]
    unfold attemptedCall pyCaption
    norm_num [hf, List.take_replicate]
  exact ⟨hcall,
    (send_truncates_payload "-1001"
      ⟨4, 5, List.replicate 2000 'a', some MediaType.photo, some "f1", true⟩
      CallOutcome.ok
      (PlatformCall.sendPhoto "-1001" "f1" (some (List.replicate 1024 'a'))) hcall).1⟩

/-! C1 -/

/-- C1, counterexample: with the collected-posts list already at the
required count (one post, one channel), a further submit does report
OVERFLOW, but it does not leave the list unchanged: the user data after
the call differs from the user data before it (the post was appended,
giving two collected posts), refuting the claim as stated. -/
theorem overflow_submit_mutates_state :
    (receive_posts (some exFullUD) exMsgYo).2.1 = ReceiveOutcome.overflow ∧
    (receive_posts (some exFullUD) exMsgYo).1 ≠ some exFullUD ∧
    ((receive_posts (some exFullUD) exMsgYo).1.elim 0 (fun d => d.posts_received.length)) = 2 := by
  decide

/-- C1, amended: for every session whose collected-posts list already has
length equal to the required count, a further submit of any post returns
the OVERFLOW outcome and appends the post to the collected-posts list
(existing posts are unaltered, the list grows by exactly the new post),
staying in the collecting state. -/
theorem overflow_submit_appends (d : UserData) (msg : IncomingMessage)
    (h : d.posts_received.length = d.channel_count) :
    receive_posts (some d) msg =
      (some ⟨d.channels, d.posts_received ++ [mkPostData msg], d.channel_count⟩,
       ReceiveOutcome.overflow, ConvState.waiting_for_posts) := by
  simp only [receive_posts, List.length_append, List.length_cons, List.length_nil]
  split_ifs with h1 h2
  · omega
  · omega
  · rfl

/-- C1, witness for the amended theorem at a concrete full session. -/
theorem overflow_submit_appends_witness :
    exFullUD.posts_received.length = exFullUD.channel_count ∧
    receive_posts (some exFullUD) exMsgYo =
      (some ⟨exFullUD.channels, exFullUD.posts_received ++ [mkPostData exMsgYo],
             exFullUD.channel_count⟩,
       ReceiveOutcome.overflow, ConvState.waiting_for_posts) :=
  ⟨by decide, overflow_submit_appends exFullUD exMsgYo (by decide)⟩

/-! C8 -/

/-- C8, counterexample: cancelling via the cancel-post button in the
ready-to-send phase ends the conversation and makes no delivery call, but
the per-principal session entry is NOT cleared: the user data afterwards
is still the full session, refuting "the per-principal session entry is
cleared" for this cancel path. -/
theorem cancel_post_keeps_session_entry :
    (handle_cancel_post (some exFullUD)).2.1 = ConvState.ended ∧
    (handle_cancel_post (some exFullUD)).2.2 = [] ∧
    (handle_cancel_post (some exFullUD)).1 = some exFullUD ∧
    some exFullUD ≠ (none : Option UserData) := by
  decide

/-- C8, amended: an explicit cancel in the collecting or ready-to-send
phase always ends the conversation (CANCELLED) and causes no dispatch side
effects (no delivery call is made for any pairing); the `/cancel` command
additionally clears the per-principal session entry, while the
cancel-post button leaves the session entry in place (it is only
overwritten by the next `/post` or cleared by a later `/cancel`). -/
theorem cancel_paths_behaviour (ud : Option UserData) :
    cancel_conversation ud = (none, ConvState.ended, []) ∧
    handle_cancel_post ud = (ud, ConvState.ended, []) :=
  ⟨rfl, rfl⟩

/-! C6 -/

/-- `receive_posts` on a live session, with the appended post and the
branch structure made explicit. -/
theorem receive_posts_some_eq (d : UserData) (msg : IncomingMessage) :
    receive_posts (some d) msg =
      (some ⟨d.channels, d.posts_received ++ [mkPostData msg], d.channel_count⟩,
       if d.posts_received.length + 1 < d.channel_count then
         ReceiveOutcome.needMore (d.channel_count - (d.posts_received.length + 1))
       else if d.posts_received.length + 1 = d.channel_count then ReceiveOutcome.ready
       else ReceiveOutcome.overflow,
       if d.posts_received.length + 1 < d.channel_count then ConvState.waiting_for_posts
       else if d.posts_received.length + 1 = d.channel_count then ConvState.waiting_for_schedule
       else ConvState.waiting_for_posts) := by
  simp only [receive_posts, List.length_append, List.length_cons, List.length_nil]
  split_ifs <;> rfl

/-- `stepMessage` on a live collecting session. -/
theorem stepMessage_some_waiting (d : UserData) (msg : IncomingMessage) :
    stepMessage ⟨some d, ConvState.waiting_for_posts⟩ msg =
      ⟨some ⟨d.channels, d.posts_received ++ [mkPostData msg], d.channel_count⟩,
       if d.posts_received.length + 1 < d.channel_count then ConvState.waiting_for_posts
       else if d.posts_received.length + 1 = d.channel_count then ConvState.waiting_for_schedule
       else ConvState.waiting_for_posts⟩ := by
  simp only [stepMessage, receive_posts_some_eq]

/-- The inductive invariant of the collection protocol: a live collecting
session holds strictly fewer posts than its required count, every live
session holds at most its required count, and the required count is the
size of the channel snapshot. -/
def sessionInv (s : BotSession) : Prop :=
  ∀ d, s.userData = some d →
    (s.conv = ConvState.waiting_for_posts →
      d.posts_received.length < d.channel_count) ∧
    d.posts_received.length ≤ d.channel_count ∧
    d.channel_count = d.channels.length

/-- The invariant is preserved by every incoming message. -/
theorem stepMessage_inv (s : BotSession) (msg : IncomingMessage)
    (h : sessionInv s) : sessionInv (stepMessage s msg) := by
  obtain ⟨ud, conv⟩ := s
  cases conv with
  | waiting_for_posts =>
    cases ud with
    | none =>
      intro d hd
      simp [stepMessage, receive_posts] at hd
    | some d =>
      have hlt : d.posts_received.length < d.channel_count := (h d rfl).1 rfl
      have hcc : d.channel_count = d.channels.length := (h d rfl).2.2
      rw [stepMessage_some_waiting]
      intro d0 hd0
      injection hd0 with hd0
      subst hd0
      refine ⟨?_, by simp [List.length_append]; omega, by simpa using hcc⟩
      intro hw
      split_ifs at hw with h1 h2
      · simpa [List.length_append] using h1
      · simp only [List.length_append, List.length_cons, List.length_nil] at h1 h2 ⊢
        omega
  | waiting_for_schedule => exact h
  | ended => exact h

/-- The invariant is preserved across any sequence of incoming
messages. -/
theorem foldl_stepMessage_inv :
    ∀ (msgs : List IncomingMessage) (s : BotSession),
      sessionInv s → sessionInv (msgs.foldl stepMessage s)
  | [], _, h => h
  | m :: ms, s, h =>
    foldl_stepMessage_inv ms (stepMessage s m) (stepMessage_inv s m h)

/-- Starting a session with at least one registered channel establishes
the invariant. -/
theorem startSession_inv (channels : List Channel) (h : channels ≠ []) :
    sessionInv (startSession channels) := by
  have he : channels.isEmpty = false := by simpa [List.isEmpty_iff] using h
  intro d hd
  simp only [startSession, post_command, he, Bool.false_eq_true, if_false,
    Option.some.injEq] at hd
  subst hd
  exact ⟨fun _ => by simpa using List.length_pos.mpr h, by simp, by simp⟩

/-- C6: across every sequence of incoming messages the protocol accepts
after `/post`, a live session's collected-posts list never exceeds the
required count, and the required count is exactly the number of
snapshotted target channels. -/
theorem collection_never_exceeds_required (channels : List Channel)
    (msgs : List IncomingMessage) (d : UserData) (h : channels ≠ [])
    (hud : (msgs.foldl stepMessage (startSession channels)).userData = some d) :
    d.posts_received.length ≤ d.channel_count ∧
    d.channel_count = d.channels.length := by
  have hinv :=
    foldl_stepMessage_inv msgs (startSession channels) (startSession_inv channels h)
  exact ⟨(hinv d hud).2.1, (hinv d hud).2.2⟩

/-- The session state after starting with channel A and submitting one
text message. -/
def exUD1 : UserData := ⟨[exChannelA], [mkPostData exMsgYo], 1⟩

/-- C6, witness: one channel, one submitted message — the collected count
stays within the required count. -/
theorem collection_never_exceeds_required_witness :
    [exChannelA] ≠ ([] : List Channel) ∧
    (([exMsgYo] : List IncomingMessage).foldl stepMessage
        (startSession [exChannelA])).userData = some exUD1 ∧
    exUD1.posts_received.length ≤ exUD1.channel_count :=
  ⟨by decide, by decide,
   (collection_never_exceeds_required [exChannelA] [exMsgYo] exUD1 (by decide)
      (by decide)).1⟩

/-! C10 -/

/-- Python `a or d` yields the default when `a` is falsy. -/
theorem pyTextOr_falsy (a : Option Text) (d : Text) (h : pyTruthyTxt a = false) :
    pyTextOr a d = d := by
  cases a with
  | none => rfl
  | some t =>
    simp only [pyTruthyTxt, Bool.not_eq_false'] at h
    simp [pyTextOr, h]

/-- C10: an incoming message with no text, no caption, no photo, no video
and no document (a sticker, say) is still collected as a post with media
type unset and empty text, appended to the collected-posts list and
counted toward the required count; dispatching that post returns a
failure without making any platform call. -/
theorem contentless_post_collected_then_fails (msg : IncomingMessage) (d : UserData)
    (cid : String) (outcome : CallOutcome)
    (htext : pyTruthyTxt msg.text = false) (hcap : pyTruthyTxt msg.caption = false)
    (hphoto : msg.photo = []) (hvideo : msg.video = none) (hdoc : msg.document = none) :
    mkPostData msg = ⟨msg.message_id, msg.chat_id, [], none, none, false⟩ ∧
    (receive_posts (some d) msg).1 =
      some ⟨d.channels, d.posts_received ++ [mkPostData msg], d.channel_count⟩ ∧
    send_post_to_channel cid (mkPostData msg) outcome = (none, false) := by
  have hmk : mkPostData msg = ⟨msg.message_id, msg.chat_id, [], none, none, false⟩ := by
    unfold mkPostData
    simp [hphoto, hvideo, hdoc, htext, pyTextOr_falsy msg.caption [] hcap,
      pyTextOr_falsy msg.text [] htext]
  refine ⟨hmk, ?_, ?_⟩
  · rw [receive_posts_some_eq]
  · rw [hmk]
    unfold send_post_to_channel send_post_to_channel_raw attemptedCall
    simp [pyTruthyStr]

/-- A sticker-like message: no text, caption or supported media. -/
def exSticker : IncomingMessage := ⟨7, 5, none, none, [], none, none⟩

/-- C10, witness: a concrete sticker message is collected as a contentless
post and its dispatch fails without a platform call. -/
theorem contentless_post_witness :
    pyTruthyTxt exSticker.text = false ∧
    mkPostData exSticker =
      ⟨exSticker.message_id, exSticker.chat_id, [], none, none, false⟩ ∧
    send_post_to_channel "-1001" (mkPostData exSticker) CallOutcome.ok = (none, false) :=
  ⟨by decide,
   (contentless_post_collected_then_fails exSticker exFullUD "-1001" CallOutcome.ok
      (by decide) (by decide) (by decide) (by decide) (by decide)).1,
   (contentless_post_collected_then_fails exSticker exFullUD "-1001" CallOutcome.ok
      (by decide) (by decide) (by decide) (by decide) (by decide)).2.2⟩

/-! C9 -/

/-- C9: `is_sudo_user` fails closed — when the storage query raises, the
check returns `False` rather than propagating the error, and a user is
reported authorized only when the query actually returns a document. -/
theorem is_sudo_user_fails_closed :
    (∀ e : String, is_sudo_user (Except.error e) = false) ∧
    (∀ r : Option SudoUserDoc, is_sudo_user (Except.ok r) = r.isSome) :=
  ⟨fun _ => rfl, fun _ => rfl⟩

end PaidBot
